import Mathlib

/-!
Verification of the deterministic time-windowed RTP/multiplier generator of the
POP REDE gallery (src/script.js, with the variant in src/unnamed/part_000).

The core functions are shallowly embedded below.  JavaScript numbers are IEEE-754
binary64 doubles; every arithmetic step of the source whose exact integer value is
guaranteed to stay below 2^53 on the real input domain is modelled with exact
natural-number or integer arithmetic, and the one step that can exceed 2^53 for
representable Date inputs (the product seed * 9301 inside getSeededRandomInt,
about 10^16 for current dates) is modelled with an explicit round-to-nearest-even
function flNat.  Bitwise operators of the source (which act on the 32-bit
reduction of their operands) are modelled by reducing mod 2^32 and using the
natural-number bitwise operations, which agree with the two-s-complement bit
patterns the source manipulates.
-/

/-- Calendar fields of a wall-clock moment, as the source reads them from a
JavaScript Date: year is getFullYear, month is getMonth (0 to 11), day is
getDate (1 to 31), hour, minute, second, ms are getHours, getMinutes,
getSeconds, getMilliseconds. -/
structure LocalTime where
  year : ℕ
  month : ℕ
  day : ℕ
  hour : ℕ
  minute : ℕ
  second : ℕ
  ms : ℕ
deriving DecidableEq, Repr

/-- Field ranges of a JavaScript Date: month 0 to 11, day of month 1 to 31,
hour below 24, minute and second below 60, milliseconds below 1000. -/
abbrev LocalTime.Valid (t : LocalTime) : Prop :=
  t.month < 12 ∧ 1 ≤ t.day ∧ t.day ≤ 31 ∧ t.hour < 24 ∧
    t.minute < 60 ∧ t.second < 60 ∧ t.ms < 1000

/-- Two moments lie in the same local calendar minute: all calendar fields
down to the minute agree. -/
abbrev SameMinute (a b : LocalTime) : Prop :=
  a.year = b.year ∧ a.month = b.month ∧ a.day = b.day ∧
    a.hour = b.hour ∧ a.minute = b.minute

/-- Chronological key of a calendar moment: lexicographic packing of the
fields with bases wide enough for every valid field (32 for the day, 24, 60,
60, 1000).  On valid field values, chronoKey a < chronoKey b says exactly
that a is earlier than b in local calendar time. -/
def chronoKey (t : LocalTime) : ℕ :=
  ((((t.year * 12 + t.month) * 32 + t.day) * 24 + t.hour) * 60 + t.minute) * 60000 +
    t.second * 1000 + t.ms

/-- Source: getTimeSeed (src/script.js lines 46 to 54).  The epoch-minute of the
spec: year * 525600 + month * 43800 + day * 1440 + hour * 60 + minute over the
local calendar fields.  All products stay far below 2^53 for representable
Date years, so exact arithmetic models the source faithfully. -/
def getTimeSeed (t : LocalTime) : ℕ :=
  t.year * 525600 + t.month * 43800 + t.day * 1440 + t.hour * 60 + t.minute

/-- JavaScript ToInt32 on an integral number: reduce mod 2^32 into the signed
range.  This is what the bitwise operators seed | 0, hash << 5 and
hash & hash of the source apply to their operands. -/
def toInt32 (x : ℤ) : ℤ :=
  if x % 4294967296 < 2147483648 then x % 4294967296 else x % 4294967296 - 4294967296

/-- Unit in the last place of the IEEE-754 binary64 value holding the natural
number x: 1 while x is below 2^53, doubling with each further binade.  The
fuel argument only drives the structural recursion; 128 is enough for every
value below 2^181 and all numbers in this development stay below 2^64. -/
def sig53Ulp : ℕ → ℕ → ℕ
  | 0, _ => 1
  | fuel + 1, x => if x < 9007199254740992 then 1 else 2 * sig53Ulp fuel (x / 2)

/-- Round a natural number to the nearest IEEE-754 binary64 value
(round-to-nearest, ties to even), the rounding JavaScript applies to the exact
result of an arithmetic operator.  Naturals below 2^53 are exact; above, the
representable values are the multiples of the ulp of the binade and a tie picks
the neighbour with even significand. -/
def flNat (x : ℕ) : ℕ :=
  if x < 9007199254740992 then x
  else
    let u := sig53Ulp 128 x
    let q := x / u
    let r := x % u
    if 2 * r < u then q * u
    else if u < 2 * r then (q + 1) * u
    else if q % 2 = 0 then q * u else (q + 1) * u

/-- Source: body of seededRandom after the seed normalisation (src/script.js
lines 61 to 64), the four mulberry32 mixing steps on a 32-bit state s, kept in
the unsigned bit-pattern view.  Step 1 adds 0x6D2B79F5 (the JavaScript double
addition is exact below 2^33 and the following bitwise operators reduce mod
2^32); steps 2 and 3 are the Math.imul products and xor-shifts, each imul
result reduced mod 2^32; step 4 xors with the shift by 14.  The returned float
is mulberry32 s / 2^32, represented here by its numerator, which the final
unsigned shift keeps below 2^32. -/
def mulberry32 (s : ℕ) : ℕ :=
  let t1 := (s + 0x6D2B79F5) % 4294967296
  let t2 := ((t1 ^^^ (t1 >>> 15)) * (t1 ||| 1)) % 4294967296
  let t3 := t2 ^^^ ((t2 + ((t2 ^^^ (t2 >>> 7)) * (t2 ||| 61)) % 4294967296) % 4294967296)
  t3 ^^^ (t3 >>> 14)

/-- Source: seededRandom (src/script.js lines 59 to 65).  The first line is
seed = Math.abs(seed | 0): reduce the seed to a signed 32-bit integer and take
its absolute value; the mixing steps follow.  The result is the numerator of
the returned float over 2^32. -/
def seededRandomNum (seed : ℤ) : ℕ :=
  mulberry32 (toInt32 seed).natAbs

/-- Source: first line of getSeededRandomInt (src/script.js line 71),
seed = (seed * 9301 + 49297) % 233280 evaluated in double precision: the exact
products seed * 9301 reached from current dates are near 10^16, above 2^53, so
both the product and the subsequent sum are rounded before the (exact)
remainder is taken. -/
def prescramble (seed : ℕ) : ℕ :=
  flNat (flNat (seed * 9301) + 49297) % 233280

/-- Source: getSeededRandomInt (src/script.js lines 70 to 74).  The floor of
random * (max - min + 1) equals the natural-number quotient of
numerator * (max - min + 1) by 2^32 because that product stays below 2^53,
making the double arithmetic of the source exact there. -/
def getSeededRandomInt (seed min max : ℕ) : ℕ :=
  let s2 := prescramble seed
  let rnum := seededRandomNum (s2 : ℤ)
  rnum * (max - min + 1) / 4294967296 + min

/-- Source: loop body of stringToHash (src/script.js lines 82 to 84):
hash = ((hash << 5) - hash) + char followed by hash = hash & hash.  The shift
acts on the 32-bit reduction of hash (hash * 32 reduced by ToInt32); the
subtraction and addition are exact double arithmetic; the final and-with-self
reduces the accumulator back to a signed 32-bit integer. -/
def hashStep (hash : ℤ) (char : ℕ) : ℤ :=
  toInt32 (toInt32 (hash * 32) - hash + char)

/-- Source: stringToHash (src/script.js lines 79 to 87).  Game identifiers are
modelled as their lists of UTF-16 code units.  The accumulator starts at 0,
each code unit is folded in with hashStep, and the absolute value of the final
signed accumulator is returned. -/
def stringToHash (str : List ℕ) : ℕ :=
  (str.foldl hashStep 0).natAbs

/-- One entry of the fixed multiplier table: display label and tier. -/
structure MultiplierEntry where
  value : String
  type : String
deriving DecidableEq, Repr

/-- RTP range of the configuration. -/
structure RTPRange where
  min : ℕ
  max : ℕ
deriving DecidableEq, Repr

/-- The parts of CONFIG (src/script.js lines 10 to 32) the generator reads:
the RTP range and the ordered multiplier table.  The unused fields
gamesPerProvider and rtpwin are omitted. -/
structure Config where
  rtpRanges : RTPRange
  multipliers : List MultiplierEntry
deriving DecidableEq, Repr

/-- Source: CONFIG (src/script.js lines 10 to 32): RTP range 30 to 99 and the
nine-entry multiplier table. -/
def CONFIG : Config :=
  { rtpRanges := { min := 30, max := 99 },
    multipliers := [⟨"3X", "low"⟩, ⟨"7X", "low"⟩, ⟨"9X", "medium"⟩, ⟨"10X", "medium"⟩,
      ⟨"11X", "medium"⟩, ⟨"13X", "high"⟩, ⟨"15X", "high"⟩, ⟨"17X", "high"⟩, ⟨"20X", "high"⟩] }

/-- Source: generateRandomRTP (src/script.js lines 92 to 97), for string game
identifiers (the typeof branch for string arguments).  The ambient current
time of the source is passed explicitly, as the spec directs.  The products
timeSeed * 1000 and the sum with the hash stay below 2^53 for every
representable Date, so exact arithmetic is faithful here. -/
def generateRandomRTP (gameId : List ℕ) (t : LocalTime) : ℕ :=
  let timeSeed := getTimeSeed t
  let gameNumericId := stringToHash gameId
  let combinedSeed := timeSeed * 1000 + gameNumericId
  getSeededRandomInt combinedSeed CONFIG.rtpRanges.min CONFIG.rtpRanges.max

/-- Return record of generateRandomMultiplier in src/script.js. -/
structure MultiplierResult where
  value : String
  type : String
  text : String
deriving DecidableEq, Repr

/-- Source: generateRandomMultiplier (src/script.js lines 102 to 120), for
string game identifiers.  The index seed is the combined seed times 7, the
Manual/Auto seed is the combined seed times 11 (both products exact below
2^53 for representable Dates); the table entry is selected by index and the
text is Manual exactly when the 0-or-1 draw equals 1. -/
def generateRandomMultiplier (gameId : List ℕ) (t : LocalTime) : MultiplierResult :=
  let timeSeed := getTimeSeed t
  let gameNumericId := stringToHash gameId
  let multiplierSeed := (timeSeed * 1000 + gameNumericId) * 7
  let multiplierIndex := getSeededRandomInt multiplierSeed 0 (CONFIG.multipliers.length - 1)
  let multiplier := CONFIG.multipliers.getD multiplierIndex ⟨"", ""⟩
  let textSeed := (timeSeed * 1000 + gameNumericId) * 11
  { value := multiplier.value, type := multiplier.type,
    text := if getSeededRandomInt textSeed 0 1 = 1 then "Manual" else "Auto" }

/-- Source: getRTPColorClass (src/script.js lines 125 to 129). -/
def getRTPColorClass (rtp : ℕ) : String :=
  if rtp ≥ 70 then "high"
  else if rtp ≥ 50 then "medium"
  else "low"

/-- Return record of generateRandomMultiplier in the variant
src/unnamed/part_000, which has no Manual/Auto text field. -/
structure MultiplierResultVariant where
  value : String
  type : String
deriving DecidableEq, Repr

/-- Source: generateRandomMultiplier of the variant (src/unnamed/part_000
lines 102 to 114): same seeds, same table selection, no text field. -/
def generateRandomMultiplierVariant (gameId : List ℕ) (t : LocalTime) : MultiplierResultVariant :=
  let timeSeed := getTimeSeed t
  let gameNumericId := stringToHash gameId
  let multiplierSeed := (timeSeed * 1000 + gameNumericId) * 7
  let multiplierIndex := getSeededRandomInt multiplierSeed 0 (CONFIG.multipliers.length - 1)
  let multiplier := CONFIG.multipliers.getD multiplierIndex ⟨"", ""⟩
  { value := multiplier.value, type := multiplier.type }

/-- Source: generateRandomRTP of the variant (src/unnamed/part_000 lines 92 to
97), textually identical to the one in src/script.js. -/
def generateRandomRTPVariant (gameId : List ℕ) (t : LocalTime) : ℕ :=
  let timeSeed := getTimeSeed t
  let gameNumericId := stringToHash gameId
  let combinedSeed := timeSeed * 1000 + gameNumericId
  getSeededRandomInt combinedSeed CONFIG.rtpRanges.min CONFIG.rtpRanges.max

/-- Recurrence of claim C4 taken at its word: hash = hash * 31 - hash + charCode,
truncated to a signed 32-bit integer at each step.  This is the claim-side
definition to be compared with hashStep from the source. -/
def claimHashStep (hash : ℤ) (char : ℕ) : ℤ :=
  toInt32 (hash * 31 - hash + char)

/-- Hash following the claim C4 recurrence literally: fold claimHashStep over
the code units and take the absolute value at the end. -/
def claimStringToHash (str : List ℕ) : ℕ :=
  (str.foldl claimHashStep 0).natAbs

/-- Single-truncation form of the hash step actually implemented by the
source: hash * 32 - hash + charCode truncated to a signed 32-bit integer once
per step (the double truncation of the source collapses to this). -/
def singleTruncHashStep (hash : ℤ) (char : ℕ) : ℤ :=
  toInt32 (hash * 32 - hash + char)

/-! Helper lemmas, shared by several claim proofs. -/

/-- A natural number below 2^53 is an exact binary64 value. -/
theorem flNat_eq_self (x : ℕ) (h : x < 9007199254740992) : flNat x = x := by
  unfold flNat
  rw [if_pos h]

/-- Xor of two 32-bit values, further xored with a right shift of itself,
stays below 2^32. -/
theorem mix_lt (a b : ℕ) (ha : a < 4294967296) (hb : b < 4294967296) :
    ((a ^^^ b) ^^^ ((a ^^^ b) >>> 14)) < 4294967296 := by
  have h32 : (4294967296 : ℕ) = 2 ^ 32 := by norm_num
  have hab : a ^^^ b < 4294967296 := by
    rw [h32] at ha hb ⊢
    exact Nat.xor_lt_two_pow ha hb
  have hsh : (a ^^^ b) >>> 14 ≤ a ^^^ b := by
    rw [Nat.shiftRight_eq_div_pow]
    exact Nat.div_le_self _ _
  rw [h32] at hab ⊢
  exact Nat.xor_lt_two_pow hab (Nat.lt_of_le_of_lt hsh (h32 ▸ hab))

/-- The mulberry32 mixing output is below 2^32: the returned value really is
the numerator of a float in the interval from 0 inclusive to 1 exclusive. -/
theorem mulberry32_lt (s : ℕ) : mulberry32 s < 4294967296 := by
  simp only [mulberry32]
  exact mix_lt _ _ (Nat.mod_lt _ (by norm_num)) (Nat.mod_lt _ (by norm_num))

/-- Range containment of getSeededRandomInt: for min at most max the result
lies in the inclusive range from min to max. -/
theorem getSeededRandomInt_le (seed min max : ℕ) (h : min ≤ max) :
    min ≤ getSeededRandomInt seed min max ∧ getSeededRandomInt seed min max ≤ max := by
  simp only [getSeededRandomInt]
  constructor
  · exact Nat.le_add_left _ _
  · have hr : seededRandomNum ((prescramble seed : ℕ) : ℤ) < 4294967296 := mulberry32_lt _
    have hdiv : seededRandomNum ((prescramble seed : ℕ) : ℤ) * (max - min + 1) / 4294967296
        < max - min + 1 := by
      apply Nat.div_lt_of_lt_mul
      exact mul_lt_mul_of_pos_right hr (by omega)
    revert hdiv
    generalize seededRandomNum ((prescramble seed : ℕ) : ℤ) * (max - min + 1) / 4294967296 = q
    intro hdiv
    omega

/-! Claim theorems. -/

/-- Claim C1: for every game identifier and any two timestamps in the same
local calendar minute, generateRandomRTP (computeRTP of the spec) and
generateRandomMultiplier (computeMultiplier) return identical results: the
displayed pair is a deterministic function of the epoch minute and the game
identifier. -/
theorem c1_same_minute_determinism (g : List ℕ) (t1 t2 : LocalTime)
    (hsm : SameMinute t1 t2) :
    generateRandomRTP g t1 = generateRandomRTP g t2 ∧
      generateRandomMultiplier g t1 = generateRandomMultiplier g t2 := by
  obtain ⟨hy, hmo, hd, hh, hmi⟩ := hsm
  have hts : getTimeSeed t1 = getTimeSeed t2 := by
    unfold getTimeSeed
    rw [hy, hmo, hd, hh, hmi]
  constructor
  · simp only [generateRandomRTP, hts]
  · simp only [generateRandomMultiplier, hts]

/-- Witness for C1 at two concrete timestamps 45.5 seconds apart inside the
minute 10:30 of 2024-01-15, with game identifier "a". -/
theorem c1_witness :
    SameMinute ⟨2024, 0, 15, 10, 30, 0, 0⟩ ⟨2024, 0, 15, 10, 30, 45, 500⟩ ∧
      (generateRandomRTP [97] ⟨2024, 0, 15, 10, 30, 0, 0⟩ =
          generateRandomRTP [97] ⟨2024, 0, 15, 10, 30, 45, 500⟩ ∧
        generateRandomMultiplier [97] ⟨2024, 0, 15, 10, 30, 0, 0⟩ =
          generateRandomMultiplier [97] ⟨2024, 0, 15, 10, 30, 45, 500⟩) :=
  ⟨by decide, c1_same_minute_determinism [97] _ _ (by decide)⟩

/-- Claim C2: generateRandomRTP equals the two-stage helper applied to the
combined seed epoch-minute times 1000 plus the hashed identifier, with the
configured range bounds 30 and 99. -/
theorem c2_rtp_seed_formula (g : List ℕ) (t : LocalTime) :
    generateRandomRTP g t =
      getSeededRandomInt (getTimeSeed t * 1000 + stringToHash g) 30 99 := rfl

/-- Counterexample to claim C3 as stated: at seed -1 the source function does
not equal the four documented mulberry32 steps applied to the 32-bit reduction
of the seed, because the source first replaces the reduced seed by its
absolute value (Math.abs(seed | 0)). -/
theorem c3_counterexample :
    seededRandomNum (-1) ≠ mulberry32 (((-1 : ℤ) % 4294967296).toNat) := by decide

/-- Amended claim C3: for every seed in the nonnegative signed 32-bit range
(0 at most, below 2^31), where the absolute-value normalisation of the source
is the identity, seededRandom equals exactly the four documented mulberry32
steps applied to the 32-bit seed, and the result numerator is below 2^32, so
the returned float lies in the interval from 0 inclusive to 1 exclusive. -/
theorem c3_mulberry32_amended (s : ℤ) (h0 : 0 ≤ s) (h1 : s < 2147483648) :
    seededRandomNum s = mulberry32 ((s % 4294967296).toNat) ∧
      seededRandomNum s < 4294967296 := by
  have ht : toInt32 s = s := by
    unfold toInt32
    split_ifs <;> omega
  unfold seededRandomNum
  rw [ht]
  have hn : s.natAbs = (s % 4294967296).toNat := by omega
  rw [hn]
  exact ⟨rfl, mulberry32_lt _⟩

/-- Witness for the amended C3 at the concrete seed 12345. -/
theorem c3_witness :
    ((0 : ℤ) ≤ 12345 ∧ (12345 : ℤ) < 2147483648) ∧
      (seededRandomNum 12345 = mulberry32 (((12345 : ℤ) % 4294967296).toNat) ∧
        seededRandomNum 12345 < 4294967296) :=
  ⟨⟨by decide, by decide⟩, c3_mulberry32_amended 12345 (by decide) (by decide)⟩

/-- Counterexample to claim C4 as stated: on the two-character identifier "ab"
the claimed recurrence hash = hash * 31 - hash + charCode (which is
30 * hash + charCode) yields 3008, while the source computes
(hash << 5) - hash + charCode, that is 31 * hash + charCode, yielding 3105. -/
theorem c4_counterexample : claimStringToHash [97, 98] ≠ stringToHash [97, 98] := by decide

/-- Amended claim C4: stringToHash walks the code units in order accumulating
hash = hash * 32 - hash + charCode (equivalently 31 * hash + charCode),
truncated to a signed 32-bit integer at each step, and finally returns the
absolute value of the accumulator.  The double truncation performed by the
source (once by the shift, once by hash & hash) collapses to the single
truncation per step stated here. -/
theorem c4_hash_amended (str : List ℕ) :
    stringToHash str = (str.foldl singleTruncHashStep 0).natAbs := by
  have hf : hashStep = singleTruncHashStep := by
    funext h c
    unfold hashStep singleTruncHashStep toInt32
    split_ifs <;> omega
  unfold stringToHash
  rw [hf]

/-- Counterexample to claim C5 as stated: for the seed that generateRandomRTP
passes to getSeededRandomInt at 2024-01-15 10:30 with identifier "a" (the
combined seed 1063836630097), the product with 9301 is 9894744496532197,
above 2^53, so the double-precision evaluation of the source rounds it and the
pre-scramble result 101172 differs from the exact integer value 101174. -/
theorem c5_counterexample :
    prescramble (getTimeSeed ⟨2024, 0, 15, 10, 30, 0, 0⟩ * 1000 + stringToHash [97]) ≠
      ((getTimeSeed ⟨2024, 0, 15, 10, 30, 0, 0⟩ * 1000 + stringToHash [97]) * 9301 + 49297) %
        233280 := by decide

/-- Amended claim C5: the pre-scramble step is evaluated in double precision
and agrees with exact integer arithmetic exactly on the seeds whose value of
seed * 9301 + 49297 stays below 2^53; the seeds passed for current dates are
near 10^12 and exceed that bound, so their products are rounded. -/
theorem c5_prescramble_amended (seed : ℕ) (h : seed * 9301 + 49297 < 9007199254740992) :
    prescramble seed = (seed * 9301 + 49297) % 233280 := by
  unfold prescramble
  rw [flNat_eq_self (seed * 9301) (by omega), flNat_eq_self _ h]

/-- Witness for the amended C5 at the concrete seed 12345. -/
theorem c5_witness :
    12345 * 9301 + 49297 < 9007199254740992 ∧
      prescramble 12345 = (12345 * 9301 + 49297) % 233280 :=
  ⟨by decide, c5_prescramble_amended 12345 (by decide)⟩

/-- Claim C6: generateRandomMultiplier selects its table entry at index
getSeededRandomInt of the combined seed times 7 over the range 0 to table
length minus 1, and takes its Manual/Auto text from the combined seed times
11 drawn over the range 0 to 1, 1 giving Manual and everything else (the draw
is always 0 or 1) giving Auto. -/
theorem c6_multiplier_formula (g : List ℕ) (t : LocalTime) :
    generateRandomMultiplier g t =
      { value := (CONFIG.multipliers.getD
            (getSeededRandomInt ((getTimeSeed t * 1000 + stringToHash g) * 7) 0
              (CONFIG.multipliers.length - 1)) ⟨"", ""⟩).value,
        type := (CONFIG.multipliers.getD
            (getSeededRandomInt ((getTimeSeed t * 1000 + stringToHash g) * 7) 0
              (CONFIG.multipliers.length - 1)) ⟨"", ""⟩).type,
        text := if getSeededRandomInt ((getTimeSeed t * 1000 + stringToHash g) * 11) 0 1 = 1
          then "Manual" else "Auto" } ∧
      getSeededRandomInt ((getTimeSeed t * 1000 + stringToHash g) * 7) 0
          (CONFIG.multipliers.length - 1) ≤ CONFIG.multipliers.length - 1 ∧
      getSeededRandomInt ((getTimeSeed t * 1000 + stringToHash g) * 11) 0 1 ≤ 1 :=
  ⟨rfl, (getSeededRandomInt_le _ 0 (CONFIG.multipliers.length - 1) (Nat.zero_le _)).2,
    (getSeededRandomInt_le _ 0 1 (Nat.zero_le _)).2⟩

/-- Claim C7: for every game identifier and timestamp the RTP lies in the
configured inclusive range, 30 to 99 under the default configuration. -/
theorem c7_rtp_range (g : List ℕ) (t : LocalTime) :
    30 ≤ generateRandomRTP g t ∧ generateRandomRTP g t ≤ 99 := by
  have h := getSeededRandomInt_le (getTimeSeed t * 1000 + stringToHash g) 30 99 (by norm_num)
  exact h

/-- Counterexample to claim C8 as stated: 2024-01-31 23:59 is chronologically
earlier than 2024-02-01 00:00 (both valid calendar moments), and they lie in
different minutes, yet the epoch-minute value decreases across the month
boundary, because the weighting month * 43800 undercounts a 31-day January. -/
theorem c8_counterexample :
    LocalTime.Valid ⟨2024, 0, 31, 23, 59, 0, 0⟩ ∧ LocalTime.Valid ⟨2024, 1, 1, 0, 0, 0, 0⟩ ∧
      chronoKey ⟨2024, 0, 31, 23, 59, 0, 0⟩ < chronoKey ⟨2024, 1, 1, 0, 0, 0, 0⟩ ∧
      getTimeSeed ⟨2024, 1, 1, 0, 0, 0, 0⟩ < getTimeSeed ⟨2024, 0, 31, 23, 59, 0, 0⟩ := by
  decide

/-- Amended claim C8: within a fixed calendar month (equal year and month
fields) the epoch-minute value is monotone: for valid timestamps with t1
chronologically earlier than t2, getTimeSeed t1 is at most getTimeSeed t2,
strictly smaller whenever the two moments lie in different minutes.  Across
month (and hence year) boundaries monotonicity fails, as the counterexample
shows. -/
theorem c8_monotone_amended (t1 t2 : LocalTime) (h1 : t1.Valid) (h2 : t2.Valid)
    (hy : t1.year = t2.year) (hm : t1.month = t2.month)
    (hk : chronoKey t1 < chronoKey t2) :
    getTimeSeed t1 ≤ getTimeSeed t2 ∧
      (¬ SameMinute t1 t2 → getTimeSeed t1 < getTimeSeed t2) := by
  obtain ⟨hmo1, hd1a, hd1b, hh1, hmi1, hs1, hms1⟩ := h1
  obtain ⟨hmo2, hd2a, hd2b, hh2, hmi2, hs2, hms2⟩ := h2
  unfold chronoKey at hk
  unfold getTimeSeed
  refine ⟨by omega, fun hns => ?_⟩
  unfold SameMinute at hns
  omega

/-- Witness for the amended C8: one minute later inside 10:30 to 10:31 of
2024-01-15, the epoch minute strictly increases. -/
theorem c8_witness :
    LocalTime.Valid ⟨2024, 0, 15, 10, 30, 0, 0⟩ ∧ LocalTime.Valid ⟨2024, 0, 15, 10, 31, 0, 0⟩ ∧
      chronoKey ⟨2024, 0, 15, 10, 30, 0, 0⟩ < chronoKey ⟨2024, 0, 15, 10, 31, 0, 0⟩ ∧
      (getTimeSeed ⟨2024, 0, 15, 10, 30, 0, 0⟩ ≤ getTimeSeed ⟨2024, 0, 15, 10, 31, 0, 0⟩ ∧
        (¬ SameMinute ⟨2024, 0, 15, 10, 30, 0, 0⟩ ⟨2024, 0, 15, 10, 31, 0, 0⟩ →
          getTimeSeed ⟨2024, 0, 15, 10, 30, 0, 0⟩ < getTimeSeed ⟨2024, 0, 15, 10, 31, 0, 0⟩)) :=
  ⟨by decide, by decide, by decide,
    c8_monotone_amended _ _ (by decide) (by decide) rfl rfl (by decide)⟩

/-- Claim C9: the tier classification is a pure function of the RTP integer:
low exactly below 50, medium exactly from 50 up to but excluding 70, high
exactly from 70 on. -/
theorem c9_tier_classification (r : ℕ) :
    (getRTPColorClass r = "low" ↔ r < 50) ∧
      (getRTPColorClass r = "medium" ↔ 50 ≤ r ∧ r < 70) ∧
      (getRTPColorClass r = "high" ↔ 70 ≤ r) := by
  unfold getRTPColorClass
  split_ifs with h1 h2
  · exact ⟨⟨fun h => absurd h (by decide), fun h => absurd h (by omega)⟩,
      ⟨fun h => absurd h (by decide), fun h => absurd h.2 (by omega)⟩,
      ⟨fun _ => h1, fun _ => rfl⟩⟩
  · exact ⟨⟨fun h => absurd h (by decide), fun h => absurd h (by omega)⟩,
      ⟨fun _ => ⟨h2, by omega⟩, fun _ => rfl⟩,
      ⟨fun h => absurd h (by decide), fun h => absurd h (by omega)⟩⟩
  · exact ⟨⟨fun _ => by omega, fun _ => rfl⟩,
      ⟨fun h => absurd h (by decide), fun h => absurd h.1 (by omega)⟩,
      ⟨fun h => absurd h (by decide), fun h => absurd h (by omega)⟩⟩

/-- Claim C10: the two retained variants implement the same algorithm: the
variant of src/unnamed/part_000 returns the same multiplier value and tier as
src/script.js and the same RTP, differing only in that it carries no
Manual/Auto text (the page hardcodes the label instead). -/
theorem c10_variant_equivalence (g : List ℕ) (t : LocalTime) :
    (generateRandomMultiplierVariant g t).value = (generateRandomMultiplier g t).value ∧
      (generateRandomMultiplierVariant g t).type = (generateRandomMultiplier g t).type ∧
      generateRandomRTPVariant g t = generateRandomRTP g t :=
  ⟨rfl, rfl, rfl⟩
